import Mathlib

/-!
Shallow embedding of the telegraf `intelliflash` input plugin
(`plugins/inputs/intelliflash/intelliflash.go`), covering the measurement
mapper (`importData`), the request dispatch (`getOneMinuteAnalyticsHistory`),
the HTTP wrapper's credential and status handling (`doRequest`), and the
poll orchestrator (`Gather`).

Go `map` values are embedded as association lists in enumeration order;
`float64` sample values are embedded as `Rat` (the mapper never computes
on them, it only copies them); `int64` values are embedded as `Int`, with
Go's truncating division written `Int.tdiv`.  External collaborators (the
HTTP transport and the JSON decoder from the Go standard library) are
modelled by their outcome, passed as an argument.
-/

namespace Intelliflash

/-- Models Go `strings.Split s "/"` (single-character separator, as used by
`importData`): splits on every occurrence, keeping empty segments. -/
def splitCharsOn (c : Char) : List Char → List (List Char)
  | [] => [[]]
  | ch :: rest =>
    let r := splitCharsOn c rest
    if ch = c then [] :: r
    else (ch :: r.headD []) :: r.tail

/-- Models Go `strings.Split dpname "/"`. -/
def strSplitSlash (s : String) : List String :=
  (splitCharsOn '/' s.toList).map String.mk

/-- Models Go `strings.ToUpper` on the ASCII strings the plugin handles. -/
def strToUpper (s : String) : String :=
  String.mk (s.toList.map Char.toUpper)

/-- Models Go `strings.ToLower` on the ASCII strings the plugin handles. -/
def strToLower (s : String) : String :=
  String.mk (s.toList.map Char.toLower)

/-- Models Go `strings.HasPrefix`. -/
def strHasPrefixB (s pre : String) : Bool :=
  pre.toList.isPrefixOf s.toList

/-- The `analyticsType` enumeration of the plugin (`SYSTEM`, `DATA`,
`CAPACITY` iota constants). -/
inductive analyticsType where
  | SYSTEM
  | DATA
  | CAPACITY
deriving DecidableEq, Repr

/-- Field values carried to the accumulator: the mapper stores `float64`
samples for analytics data and `int64` sizes for capacity data in the
`map[string]interface{}` fields map. -/
inductive FieldValue where
  | float (q : Rat)
  | int (n : Int)
deriving DecidableEq, Repr

/-- One decoded JSON object of the response array (`analyticsElement`).
`datapoints` is Go's `map[string][]float64` in enumeration order. -/
structure analyticsElement where
  systemAnalyticsType : String
  entityType : String
  entityName : String
  timestamps : List Int
  datapoints : List (String × List Rat)
  name : String
  availableSize : Int
  totalSize : Int
deriving DecidableEq, Repr

/-- One record handed to `acc.AddFields` (measurement, tags, fields,
timestamp in epoch seconds); the accumulator copies the maps at call time. -/
structure MeasurementRecord where
  measurement : String
  tags : List (String × String)
  fields : List (String × FieldValue)
  timestamp : Int
deriving DecidableEq, Repr

def defaultRecord : MeasurementRecord := ⟨"", [], [], 0⟩

/-- Go map read `m[k]` (first matching key; keys are unique by
construction of `mset`). -/
def mget {α : Type} (k : String) : List (String × α) → Option α
  | [] => none
  | p :: rest => if p.1 = k then some p.2 else mget k rest

/-- Whether key `k` is present. -/
def mhas {α : Type} (k : String) (m : List (String × α)) : Bool :=
  (mget k m).isSome

/-- Go map write `m[k] = v`: replaces the value if the key is present,
appends otherwise. -/
def mset {α : Type} (m : List (String × α)) (k : String) (v : α) :
    List (String × α) :=
  if mhas k m then m.map (fun p => if p.1 = k then (k, v) else p)
  else m ++ [(k, v)]

/-- The per-element mutable state of `importData`: the `tags` and `fields`
maps it allocates once per decoded element. -/
structure MapState where
  tags : List (String × String)
  fields : List (String × FieldValue)
deriving DecidableEq, Repr

/-- The `SYSTEM`-mode switch body of `importData`: dispatch on
`strings.ToUpper(systemAnalyticsType)` and update the tag/field maps from
the slash-split datapoint path (`name`) and the sample value `v`.
Unrecognised sub-categories fall through without touching the maps. -/
def deriveSystem (typUpper : String) (name : List String) (v : Rat)
    (st : MapState) : MapState :=
  if typUpper = "POOL_PERFORMANCE" then
    { tags := mset (mset st.tags "pool" (name.getD 0 "")) "disktype" (name.getD 1 ""),
      fields := mset st.fields (name.getD 2 "") (FieldValue.float v) }
  else if typUpper = "NETWORK" then
    if strHasPrefixB (name.getD 1 "") "I" then
      { tags := mset (mset st.tags "controller" (name.getD 0 "")) "interface" (name.getD 2 ""),
        fields := mset st.fields (name.getD 3 "") (FieldValue.float v) }
    else
      { tags := mset st.tags "controller" (name.getD 0 ""),
        fields := mset st.fields ((name.getD 1 "") ++ "_" ++ (name.getD 2 "")) (FieldValue.float v) }
  else if typUpper = "CPU" then
    { tags := mset st.tags "controller" (name.getD 0 ""),
      fields := mset st.fields (name.getD 1 "") (FieldValue.float v) }
  else if typUpper = "CACHE_HITS" then
    { tags := mset st.tags "controller" (name.getD 0 ""),
      fields := mset st.fields (name.getD 1 "") (FieldValue.float v) }
  else st

/-- The measurement name used by `importData` for the current element:
the sub-category string in `SYSTEM` mode, the entity type in `DATA` mode,
the literal `CAPACITY` in capacity mode. -/
def measurementOf (t : analyticsType) (elem : analyticsElement) : String :=
  match t with
  | .SYSTEM => elem.systemAnalyticsType
  | .DATA => elem.entityType
  | .CAPACITY => "CAPACITY"

/-- The per-sample step of `importData`'s inner loop body: update the
element's tag/field maps for one (datapoint path, sample) pair. -/
def stepOne (t : analyticsType) (elem : analyticsElement) (dpname : String)
    (v : Rat) (st : MapState) : MapState :=
  match t with
  | .SYSTEM => deriveSystem (strToUpper elem.systemAnalyticsType) (strSplitSlash dpname) v st
  | .DATA =>
    { tags := mset st.tags (strToLower elem.entityType) elem.entityName,
      fields := mset st.fields ((strSplitSlash dpname).getD 0 "") (FieldValue.float v) }
  | .CAPACITY => st

/-- The `for midx := range datapoint` loop of `importData`: one
`acc.AddFields` call per sample index, on the element-scoped maps, with
timestamp `Timestamps[midx] / 1000` (Go truncating `int64` division). -/
def emitSamples (t : analyticsType) (elem : analyticsElement) (dpname : String) :
    Nat → List Rat → MapState → MapState × List MeasurementRecord
  | _, [], st => (st, [])
  | midx, v :: rest, st =>
    ((emitSamples t elem dpname (midx + 1) rest (stepOne t elem dpname v st)).1,
      { measurement := measurementOf t elem,
        tags := (stepOne t elem dpname v st).tags,
        fields := (stepOne t elem dpname v st).fields,
        timestamp := Int.tdiv (elem.timestamps.getD midx 0) 1000 }
        :: (emitSamples t elem dpname (midx + 1) rest (stepOne t elem dpname v st)).2)

/-- The `for dpname, datapoint := range analytics[idx].Datapoints` loop of
`importData`, threading the element-scoped maps through every path. -/
def emitPaths (t : analyticsType) (elem : analyticsElement) :
    List (String × List Rat) → MapState → MapState × List MeasurementRecord
  | [], st => (st, [])
  | p :: rest, st =>
    ((emitPaths t elem rest (emitSamples t elem p.1 0 p.2 st).1).1,
      (emitSamples t elem p.1 0 p.2 st).2 ++
        (emitPaths t elem rest (emitSamples t elem p.1 0 p.2 st).1).2)

/-- The initial tag map of one element: `tags["array"]` is the configured
host unless an identity lookup populated `SystemName`. -/
def initialTags (systemName : List String) (host : String) :
    List (String × String) :=
  if systemName.length = 0 then mset [] "array" host
  else mset [] "array" (systemName.getD 0 "")

/-- The records `importData` emits for one decoded element.  `now` stands
for `time.Now()` used by the capacity branch. -/
def processElement (t : analyticsType) (systemName : List String)
    (host : String) (now : Int) (elem : analyticsElement) :
    List MeasurementRecord :=
  match t with
  | .CAPACITY =>
    [{ measurement := "CAPACITY",
       tags := mset (initialTags systemName host) "pool" elem.name,
       fields := mset (mset [] "available_size" (FieldValue.int elem.availableSize))
         "total_size" (FieldValue.int elem.totalSize),
       timestamp := now }]
  | _ => (emitPaths t elem elem.datapoints ⟨initialTags systemName host, []⟩).2

/-- `importData`: the JSON decode outcome (the `encoding/json` call is an
external collaborator, modelled by its result) followed by the mapping
loop.  Returns the function's error result together with the records
emitted to the accumulator. -/
def importData (decoded : Except String (List analyticsElement))
    (systemName : List String) (host : String) (t : analyticsType)
    (now : Int) : Except String Unit × List MeasurementRecord :=
  match decoded with
  | .error _ => (.error "error decoding JSON", [])
  | .ok analytics => (.ok (), analytics.flatMap (processElement t systemName host now))

/-! ## Request builder (`getOneMinuteAnalyticsHistory`, `emptyThenNull`) -/

def apiURI : String := "/zebi/api/v2"

/-- Data-analytics filter group (`dataMetrics`). -/
structure dataMetrics where
  dataSets : List String
  vms : List String
  protocols : List String
deriving DecidableEq, Repr

/-- `emptyThenNull`: wrap a non-empty joined list in `["…"]`, else the
JSON literal `null`. -/
def emptyThenNull (str : String) : String :=
  if str.length > 0 then "[\"" ++ str ++ "\"]" else "null"

/-- The JSON body built from one data-metrics filter group
(`fmt.Sprintf("[%s,%s,%s]", …)` with protocols upper-cased). -/
def dataJSONReq (dm : dataMetrics) : String :=
  "[" ++ emptyThenNull (String.intercalate "\",\"" dm.dataSets) ++ "," ++
    emptyThenNull (String.intercalate "\",\"" dm.vms) ++ "," ++
    emptyThenNull (strToUpper (String.intercalate "\",\"" dm.protocols)) ++ "]"

/-- The `SYSTEM` request body: the four built-in sub-categories unless an
include-list is configured. -/
def systemAnalyticsBody (sysMetrics : List String) : String :=
  if sysMetrics.length > 0 then
    "[[\"" ++ String.intercalate "\",\"" sysMetrics ++ "\"]]"
  else
    "[[\"NETWORK\", \"POOL_PERFORMANCE\", \"CPU\", \"CACHE_HITS\"]]"

/-- The `DATA` request body: the Go `for _, datametric := range
s.DataMetrics` loop assigns `data` on every iteration, so each iteration
overwrites the previous group's body. -/
def dataAnalyticsBody (groups : List (String × dataMetrics)) : String :=
  groups.foldl (fun _data g => dataJSONReq g.2) ""

/-- The requests (URL, method, body) that one
`getOneMinuteAnalyticsHistory` call issues: exactly one `doRequest` call
in either analytics mode, an `unknown analytics type` error otherwise. -/
def getOneMinuteAnalyticsHistoryRequests (sysMetrics : List String)
    (groups : List (String × dataMetrics)) (addr : String)
    (t : analyticsType) : Except String (List (String × String × String)) :=
  match t with
  | .SYSTEM =>
    .ok [("https://" ++ addr ++ apiURI ++ "/getOneMinuteSystemAnalyticsHistory",
      "POST", systemAnalyticsBody sysMetrics)]
  | .DATA =>
    .ok [("https://" ++ addr ++ apiURI ++ "/getOneMinuteDataAnalyticsHistory",
      "POST", dataAnalyticsBody groups)]
  | .CAPACITY => .error "unknown analytics type"

/-! ## HTTP wrapper (`doRequest`): credential handling and status check -/

/-- The transport outcome of `s.client.Do` (external collaborator). -/
inductive httpOutcome where
  | transportError (msg : String)
  | response (status : Nat)
deriving DecidableEq, Repr

/-- What one `doRequest` call did: whether `client.Do` was reached, which
basic-auth pair the issued request carried, and the returned
status/error. -/
structure doRequestResult where
  networkCalled : Bool
  authUsed : Option (String × String)
  result : Except String Nat
deriving Repr

/-- `doRequest` after URL parsing: the URL userinfo branch sets basic auth
first, but the configured username/password check then either overwrites
it or returns before `client.Do`; a non-200 status is an error (debug-mode
vendor-error enrichment omitted: it only extends the message). -/
def doRequestModel (addr : String) (urlUser : Option (String × String))
    (username password : String) (outcome : httpOutcome) : doRequestResult :=
  let _urlAuth : Option (String × String) := urlUser
  if username ≠ "" ∨ password ≠ "" then
    match outcome with
    | .transportError m =>
      ⟨true, some (username, password),
        .error ("unable to connect to intelliflash API '" ++ addr ++ "': " ++ m)⟩
    | .response code =>
      if code ≠ 200 then
        ⟨true, some (username, password),
          .error ("Unable to get valid stat result from '" ++ addr ++
            "', http response code : " ++ toString code)⟩
      else ⟨true, some (username, password), .ok code⟩
  else ⟨false, none, .error "username or password not set"⟩

/-- Whether a `doRequest` result is a success. -/
def isSuccess : Except String Nat → Bool
  | .ok _ => true
  | .error _ => false

/-! ## Poll orchestrator (`Gather`) -/

/-- The outcome of each sequential step of one server's goroutine (each
step's error result; the steps themselves perform the network calls and
are modelled by their outcome). -/
structure stepOutcomes where
  listSystemPropertiesErr : Option String
  systemAnalyticsErr : Option String
  dataAnalyticsErr : Option String
  capacityErr : Option String
deriving DecidableEq, Repr

def optErr : Option String → List String
  | some e => [e]
  | none => []

/-- The errors one server's goroutine hands to `acc.AddError`: every step
runs and reports independently; the data/capacity steps run only when the
corresponding configuration is present. -/
def serverTaskErrors (dataConfigured capacityConfigured : Bool)
    (o : stepOutcomes) : List String :=
  optErr o.listSystemPropertiesErr ++ optErr o.systemAnalyticsErr ++
    (if dataConfigured then optErr o.dataAnalyticsErr else []) ++
    (if capacityConfigured then optErr o.capacityErr else [])

/-- `Gather`: an empty server list fails synchronously before any goroutine
is spawned; otherwise one task per server runs and the call returns `nil`
with the per-server error lists collected into the accumulator. -/
def gather (servers : List String) (dataConfigured capacityConfigured : Bool)
    (outcomes : String → stepOutcomes) :
    Except String (List (String × List String)) :=
  if servers.length = 0 then .error "no servers specified"
  else .ok (servers.map (fun serv =>
    (serv, serverTaskErrors dataConfigured capacityConfigured (outcomes serv))))

/-! ## Record-set comparison (order-insensitive, maps compared by lookup) -/

/-- Two association lists agree as maps. -/
def mapEqB {α : Type} [DecidableEq α] (m1 m2 : List (String × α)) : Bool :=
  m1.all (fun p => decide (mget p.1 m2 = some p.2)) &&
    m2.all (fun p => decide (mget p.1 m1 = some p.2))

/-- Two records agree up to map-representation of their tag and field
sets. -/
def recordEquivB (r1 r2 : MeasurementRecord) : Bool :=
  decide (r1.measurement = r2.measurement) && mapEqB r1.tags r2.tags &&
    mapEqB r1.fields r2.fields && decide (r1.timestamp = r2.timestamp)

/-- Order-insensitive equality of two emitted record collections. -/
def recordSetEquivB (l1 l2 : List MeasurementRecord) : Bool :=
  l1.all (fun r => l2.any (fun r' => recordEquivB r r')) &&
    l2.all (fun r => l1.any (fun r' => recordEquivB r r'))

/-- Replace a record's measurement name (used to relate the output of two
elements whose sub-category strings differ only in case). -/
def replaceMeasurement (m : String) (r : MeasurementRecord) : MeasurementRecord :=
  { r with measurement := m }

/-! ## Concrete fixtures used by the closed theorems -/

/-- The spec's `NETWORK` example element. -/
def elemC6 : analyticsElement :=
  ⟨"NETWORK", "", "", [1565474000000],
    [("Controller-B/IG/mgmt0/Transmit_Mbps", [0])], "", 0, 0⟩

/-- A `CPU` element whose datapoint map holds two paths with distinct
derived field names, with Go's map enumeration visiting `User_Used`
first. -/
def elemTwoPaths : analyticsElement :=
  ⟨"CPU", "", "", [1565474000000],
    [("Controller-A/User_Used", [1]), ("Controller-A/Total_Used", [2])], "", 0, 0⟩

/-- The same element as `elemTwoPaths` with the opposite map enumeration
order (Go map iteration order is not deterministic). -/
def elemTwoPathsRev : analyticsElement :=
  ⟨"CPU", "", "", [1565474000000],
    [("Controller-A/Total_Used", [2]), ("Controller-A/User_Used", [1])], "", 0, 0⟩

/-- A `CPU` element with one path carrying two samples; the second
timestamp exercises millisecond truncation. -/
def elemC2 : analyticsElement :=
  ⟨"CPU", "", "", [5000, 6999], [("Controller-A/Total_Used", [1, 2])], "", 0, 0⟩

/-- A canonical upper-case `NETWORK` element used to compare against its
lower-case variant. -/
def elemC10 : analyticsElement :=
  ⟨"NETWORK", "", "", [1000], [("Controller-A/IG/eth1/Receive_Mbps", [3])], "", 0, 0⟩

/-- First configured data-metrics filter group. -/
def dmA : dataMetrics := ⟨["A-dataset"], [], []⟩

/-- Second configured data-metrics filter group. -/
def dmB : dataMetrics := ⟨["B-dataset"], [], ["nfs"]⟩

/-- Per-server step outcomes where only server `s1` fails (all four
steps). -/
def outcomesOneBadServer : String → stepOutcomes := fun serv =>
  if serv = "s1" then ⟨some "eA", some "eB", some "eC", some "eD"⟩
  else ⟨none, none, none, none⟩

/-! ## Map lemmas -/

theorem mget_map_set {α : Type} (k : String) (v : α) :
    ∀ m : List (String × α), mhas k m = true →
      mget k (m.map (fun p => if p.1 = k then (k, v) else p)) = some v := by
  intro m
  induction m with
  | nil => intro h; simp [mhas, mget] at h
  | cons p rest ih =>
    intro h
    by_cases hp : p.1 = k
    · simp [mget, hp]
    · have h' : mhas k rest = true := by simpa [mhas, mget, hp] using h
      simp [mget, hp, ih h']

theorem mget_append_single {α : Type} (k : String) (v : α) :
    ∀ m : List (String × α), mget k m = none → mget k (m ++ [(k, v)]) = some v := by
  intro m
  induction m with
  | nil => intro _; simp [mget]
  | cons p rest ih =>
    intro h
    by_cases hp : p.1 = k
    · simp [mget, hp] at h
    · simp [mget, hp] at h ⊢
      exact ih h

/-- Reading back the key just written. -/
theorem mget_mset_self {α : Type} (m : List (String × α)) (k : String) (v : α) :
    mget k (mset m k v) = some v := by
  unfold mset
  by_cases h : mhas k m
  · simp [h, mget_map_set k v m h]
  · have hnone : mget k m = none := by
      cases hm : mget k m with
      | none => rfl
      | some a => exact absurd (by simp [mhas, hm]) h
    simp [h, mget_append_single k v m hnone]

theorem mget_map_set_ne {α : Type} (k k' : String) (v : α) (hkk : k' ≠ k) :
    ∀ m : List (String × α),
      mget k' (m.map (fun p => if p.1 = k then (k, v) else p)) = mget k' m := by
  intro m
  induction m with
  | nil => simp [mget]
  | cons p rest ih =>
    by_cases hp : p.1 = k
    · have hp' : p.1 ≠ k' := by rw [hp]; exact Ne.symm hkk
      simp [mget, hp, hp', Ne.symm hkk, ih]
    · simp only [List.map_cons, if_neg hp]
      by_cases hpk' : p.1 = k' <;> simp [mget, hpk', ih]

theorem mget_append_single_ne {α : Type} (k k' : String) (v : α) (hkk : k' ≠ k) :
    ∀ m : List (String × α), mget k' (m ++ [(k, v)]) = mget k' m := by
  intro m
  induction m with
  | nil => simp [mget, Ne.symm hkk]
  | cons p rest ih =>
    by_cases hp : p.1 = k' <;> simp [mget, hp, ih]

/-- Writing one key leaves every other key unchanged. -/
theorem mget_mset_ne {α : Type} (m : List (String × α)) (k k' : String) (v : α)
    (hkk : k' ≠ k) : mget k' (mset m k v) = mget k' m := by
  unfold mset
  by_cases h : mhas k m
  · simp [h, mget_map_set_ne k k' v hkk m]
  · simp [h, mget_append_single_ne k k' v hkk m]

/-! ## Structure lemmas about the emission loops -/

/-- The timestamps of the records emitted for one datapoint path: one
record per sample index, stamped `Timestamps[midx] / 1000`, independently
of the accumulated map state. -/
theorem emitSamples_timestamps (t : analyticsType) (elem : analyticsElement)
    (dpname : String) :
    ∀ (samples : List Rat) (midx : Nat) (st : MapState),
      ((emitSamples t elem dpname midx samples st).2).map (fun r => r.timestamp)
        = (List.range samples.length).map
            (fun i => Int.tdiv (elem.timestamps.getD (midx + i) 0) 1000) := by
  intro samples
  induction samples with
  | nil => intro midx st; simp [emitSamples]
  | cons v rest ih =>
    intro midx st
    have hidx : ∀ i : Nat, midx + 1 + i = midx + (i + 1) := by omega
    simp [emitSamples, ih, List.range_succ_eq_map, List.map_map, hidx,
      Function.comp]

/-- One record is emitted per sample index of one datapoint path. -/
theorem emitSamples_length (t : analyticsType) (elem : analyticsElement)
    (dpname : String) :
    ∀ (samples : List Rat) (midx : Nat) (st : MapState),
      ((emitSamples t elem dpname midx samples st).2).length = samples.length := by
  intro samples
  induction samples with
  | nil => intro midx st; simp [emitSamples]
  | cons v rest ih => intro midx st; simp [emitSamples, ih]

/-- The records emitted for one element number the sum over its datapoint
paths of the sample-sequence lengths. -/
theorem emitPaths_length (t : analyticsType) (elem : analyticsElement) :
    ∀ (l : List (String × List Rat)) (st : MapState),
      ((emitPaths t elem l st).2).length = (l.map (fun p => p.2.length)).sum := by
  intro l
  induction l with
  | nil => intro st; simp [emitPaths]
  | cons p rest ih => intro st; simp [emitPaths, emitSamples_length, ih]

/-- The timestamps of all records emitted for one element in an analytics
mode, in emission order. -/
theorem emitPaths_timestamps (t : analyticsType) (elem : analyticsElement) :
    ∀ (l : List (String × List Rat)) (st : MapState),
      ((emitPaths t elem l st).2).map (fun r => r.timestamp)
        = l.flatMap (fun p => (List.range p.2.length).map
            (fun i => Int.tdiv (elem.timestamps.getD i 0) 1000)) := by
  intro l
  induction l with
  | nil => intro st; simp [emitPaths]
  | cons p rest ih =>
    intro st
    simp [emitPaths, emitSamples_timestamps, ih]

/-! ## Congruence of the mapper under case changes of the sub-category -/

theorem stepOne_toUpper_congr (elem : analyticsElement) (t' : String)
    (h : strToUpper t' = strToUpper elem.systemAnalyticsType)
    (dpname : String) (v : Rat) (st : MapState) :
    stepOne analyticsType.SYSTEM { elem with systemAnalyticsType := t' } dpname v st
      = stepOne analyticsType.SYSTEM elem dpname v st := by
  simp [stepOne, h]

theorem emitSamples_toUpper_congr (elem : analyticsElement) (t' : String)
    (h : strToUpper t' = strToUpper elem.systemAnalyticsType) (dpname : String) :
    ∀ (samples : List Rat) (midx : Nat) (st : MapState),
      emitSamples analyticsType.SYSTEM { elem with systemAnalyticsType := t' }
          dpname midx samples st
        = ((emitSamples analyticsType.SYSTEM elem dpname midx samples st).1,
           (emitSamples analyticsType.SYSTEM elem dpname midx samples st).2.map
             (replaceMeasurement t')) := by
  intro samples
  induction samples with
  | nil => intro midx st; simp [emitSamples]
  | cons v rest ih =>
    intro midx st
    simp [emitSamples, stepOne_toUpper_congr elem t' h, ih, measurementOf,
      replaceMeasurement]

theorem emitPaths_toUpper_congr (elem : analyticsElement) (t' : String)
    (h : strToUpper t' = strToUpper elem.systemAnalyticsType) :
    ∀ (l : List (String × List Rat)) (st : MapState),
      emitPaths analyticsType.SYSTEM { elem with systemAnalyticsType := t' } l st
        = ((emitPaths analyticsType.SYSTEM elem l st).1,
           (emitPaths analyticsType.SYSTEM elem l st).2.map (replaceMeasurement t')) := by
  intro l
  induction l with
  | nil => intro st; simp [emitPaths]
  | cons p rest ih =>
    intro st
    simp [emitPaths, emitSamples_toUpper_congr elem t' h, ih]

/-! ## Last-write-wins shape of the `DATA` request loop -/

theorem foldl_overwrite {α β : Type} (f : α → β) :
    ∀ (l : List α) (h : l ≠ []) (b : β),
      l.foldl (fun _ x => f x) b = f (l.getLast h) := by
  intro l
  induction l with
  | nil => intro h; exact absurd rfl h
  | cons a rest ih =>
    intro h b
    cases rest with
    | nil => simp [List.getLast]
    | cons a2 rest2 =>
      rw [List.foldl_cons, ih (List.cons_ne_nil a2 rest2)]
      rw [List.getLast_cons (List.cons_ne_nil a2 rest2)]

/-! ## Claim theorems -/

/-- Claim C1, evaluated at a failing input (code bug): `importData`
allocates the `fields` map once per element, not once per sample, so the
accumulator call for the second datapoint path of `elemTwoPaths` receives
a field map holding both derived fields, not exactly one. -/
theorem C1_second_call_receives_two_fields :
    (processElement analyticsType.SYSTEM [] "localhost" 0 elemTwoPaths).length = 2 ∧
    ((processElement analyticsType.SYSTEM [] "localhost" 0 elemTwoPaths).getD 1
        defaultRecord).fields.length = 2 ∧
    mget "User_Used" ((processElement analyticsType.SYSTEM [] "localhost" 0
        elemTwoPaths).getD 1 defaultRecord).fields = some (FieldValue.float 1) ∧
    mget "Total_Used" ((processElement analyticsType.SYSTEM [] "localhost" 0
        elemTwoPaths).getD 1 defaultRecord).fields = some (FieldValue.float 2) := by
  decide

/-- Claim C2: in an analytics mode, one element yields one record per
(datapoint path, sample index) pair — the sum over its paths of the
sample-sequence length — and the record for sample index `i` is stamped
`Timestamps[i] / 1000` (epoch milliseconds truncated to seconds). -/
theorem C2_record_count_and_timestamps :
    ∀ (t : analyticsType) (elem : analyticsElement) (sysName : List String)
      (host : String) (now : Int),
      (t = analyticsType.SYSTEM ∨ t = analyticsType.DATA) →
      (∀ p ∈ elem.datapoints, p.2.length = elem.timestamps.length) →
      (processElement t sysName host now elem).length
          = (elem.datapoints.map (fun p => p.2.length)).sum ∧
      (processElement t sysName host now elem).map (fun r => r.timestamp)
          = elem.datapoints.flatMap (fun p => (List.range p.2.length).map
              (fun i => Int.tdiv (elem.timestamps.getD i 0) 1000)) := by
  intro t elem sysName host now ht _hinv
  have key : ∀ t0 : analyticsType,
      ((emitPaths t0 elem elem.datapoints ⟨initialTags sysName host, []⟩).2).map
          (fun r => r.timestamp)
        = elem.datapoints.flatMap (fun p => (List.range p.2.length).map
            (fun i => Int.tdiv (elem.timestamps.getD i 0) 1000)) :=
    fun t0 => emitPaths_timestamps t0 elem elem.datapoints ⟨initialTags sysName host, []⟩
  rcases ht with h | h
  · subst h
    constructor
    · show (emitPaths analyticsType.SYSTEM elem elem.datapoints
          ⟨initialTags sysName host, []⟩).2.length
        = (elem.datapoints.map (fun p => p.2.length)).sum
      exact emitPaths_length analyticsType.SYSTEM elem elem.datapoints
        ⟨initialTags sysName host, []⟩
    · exact key analyticsType.SYSTEM
  · subst h
    constructor
    · show (emitPaths analyticsType.DATA elem elem.datapoints
          ⟨initialTags sysName host, []⟩).2.length
        = (elem.datapoints.map (fun p => p.2.length)).sum
      exact emitPaths_length analyticsType.DATA elem elem.datapoints
        ⟨initialTags sysName host, []⟩
    · exact key analyticsType.DATA

/-- Witness for C2 at a concrete element with two samples on one path
(timestamps 5000 ms and 6999 ms truncate to 5 s and 6 s). -/
theorem C2_witness :
    (analyticsType.SYSTEM = analyticsType.SYSTEM ∨
      analyticsType.SYSTEM = analyticsType.DATA) ∧
    (∀ p ∈ elemC2.datapoints, p.2.length = elemC2.timestamps.length) ∧
    ((processElement analyticsType.SYSTEM [] "localhost" 0 elemC2).length
        = (elemC2.datapoints.map (fun p => p.2.length)).sum ∧
      (processElement analyticsType.SYSTEM [] "localhost" 0 elemC2).map
          (fun r => r.timestamp)
        = elemC2.datapoints.flatMap (fun p => (List.range p.2.length).map
            (fun i => Int.tdiv (elemC2.timestamps.getD i 0) 1000))) :=
  ⟨Or.inl rfl, by decide,
    C2_record_count_and_timestamps analyticsType.SYSTEM elemC2 [] "localhost" 0
      (Or.inl rfl) (by decide)⟩

/-- Counterexample to claim C3: two configured data-metrics filter groups
produce a single request whose body holds only the second group's filter;
the first group's filter is dropped. -/
theorem C3_counterexample :
    getOneMinuteAnalyticsHistoryRequests []
        [("g1", ⟨["Pool-A/Proj/DS"], [], []⟩), ("g2", ⟨["Pool-B/Proj/DS"], [], []⟩)]
        "localhost" analyticsType.DATA
      = Except.ok [("https://localhost/zebi/api/v2/getOneMinuteDataAnalyticsHistory",
          "POST", "[[\"Pool-B/Proj/DS\"],null,null]")] := by
  rfl

/-- Claim C3 as amended: one `DATA` pass issues exactly one sub-request,
whose body is built from the last enumerated filter group. -/
theorem C3_amended_last_group_wins :
    ∀ (sysMetrics : List String) (groups : List (String × dataMetrics))
      (addr : String) (h : groups ≠ []),
      getOneMinuteAnalyticsHistoryRequests sysMetrics groups addr analyticsType.DATA
        = Except.ok [("https://" ++ addr ++ apiURI ++ "/getOneMinuteDataAnalyticsHistory",
            "POST", dataJSONReq (groups.getLast h).2)] := by
  intro sysMetrics groups addr h
  simp [getOneMinuteAnalyticsHistoryRequests, dataAnalyticsBody,
    foldl_overwrite (fun g : String × dataMetrics => dataJSONReq g.2) groups h]

/-- Witness for the amended C3 at two concrete groups. -/
theorem C3_witness :
    ([("gA", dmA), ("gB", dmB)] : List (String × dataMetrics)) ≠ [] ∧
    getOneMinuteAnalyticsHistoryRequests [] [("gA", dmA), ("gB", dmB)] "server1"
        analyticsType.DATA
      = Except.ok [("https://server1/zebi/api/v2/getOneMinuteDataAnalyticsHistory",
          "POST", "[[\"B-dataset\"],null,[\"NFS\"]]")] := by
  refine ⟨by decide, ?_⟩
  rw [C3_amended_last_group_wins [] [("gA", dmA), ("gB", dmB)] "server1" (by decide)]
  rfl

/-- Counterexample to claim C4: the URL carries userinfo, no
username/password is configured, yet `doRequest` fails with the
missing-credentials error without issuing the request. -/
theorem C4_counterexample :
    doRequestModel "localhost" (some ("urluser", "urlpass")) "" ""
        (httpOutcome.response 200)
      = ⟨false, none, Except.error "username or password not set"⟩ := by
  rfl

/-- Claim C4 as amended: `doRequest` fails with the missing-credentials
error, before any network call, exactly when both the configured username
and password are empty, regardless of URL userinfo; otherwise the issued
request carries the configured pair (overriding any URL userinfo). -/
theorem C4_amended_config_credentials_only :
    ∀ (addr : String) (urlUser : Option (String × String)) (u p : String)
      (outcome : httpOutcome),
      (u = "" ∧ p = "" → doRequestModel addr urlUser u p outcome
          = ⟨false, none, Except.error "username or password not set"⟩) ∧
      ((u ≠ "" ∨ p ≠ "") →
        (doRequestModel addr urlUser u p outcome).networkCalled = true ∧
        (doRequestModel addr urlUser u p outcome).authUsed = some (u, p)) := by
  intro addr urlUser u p outcome
  constructor
  · rintro ⟨hu, hp⟩
    subst hu; subst hp
    simp [doRequestModel]
  · intro h
    simp only [doRequestModel]
    rw [if_pos h]
    cases outcome with
    | transportError m => simp
    | response code =>
      by_cases hc : code = 200
      · simp [hc]
      · simp [hc]

/-- Witness for the amended C4 at concrete inputs. -/
theorem C4_witness :
    (("" : String) = "" ∧ ("" : String) = "") ∧
    doRequestModel "server2" (some ("alice", "secret")) "" ""
        (httpOutcome.response 404)
      = ⟨false, none, Except.error "username or password not set"⟩ :=
  ⟨⟨rfl, rfl⟩,
    (C4_amended_config_credentials_only "server2" (some ("alice", "secret")) "" ""
      (httpOutcome.response 404)).1 ⟨rfl, rfl⟩⟩

/-- Claim C5, evaluated at a failing input (code bug): the same decoded
element presented in its two possible map enumeration orders (Go map
iteration order is randomized) yields record sets that differ even up to
reordering and map-representation, because the element-scoped `fields`
map accumulates across datapoint paths. -/
theorem C5_iteration_order_changes_record_set :
    elemTwoPathsRev.datapoints = elemTwoPaths.datapoints.reverse ∧
    recordSetEquivB (processElement analyticsType.SYSTEM [] "localhost" 0 elemTwoPaths)
        (processElement analyticsType.SYSTEM [] "localhost" 0 elemTwoPathsRev)
      = false := by
  decide

/-- Claim C6: the spec's `NETWORK` example emits exactly the stated
record, and in general the `NETWORK` rule tags `interface` with
segment 2 and stores the sample under segment 3 when segment 1 begins
with `I`, while otherwise it leaves the `interface` tag untouched and
stores the sample under `segment1_segment2`. -/
theorem C6_network_example_and_rule :
    ((processElement analyticsType.SYSTEM [] "localhost" 0 elemC6).length = 1 ∧
      ((processElement analyticsType.SYSTEM [] "localhost" 0 elemC6).getD 0
          defaultRecord).measurement = "NETWORK" ∧
      mget "array" ((processElement analyticsType.SYSTEM [] "localhost" 0
          elemC6).getD 0 defaultRecord).tags = some "localhost" ∧
      mget "controller" ((processElement analyticsType.SYSTEM [] "localhost" 0
          elemC6).getD 0 defaultRecord).tags = some "Controller-B" ∧
      mget "interface" ((processElement analyticsType.SYSTEM [] "localhost" 0
          elemC6).getD 0 defaultRecord).tags = some "mgmt0" ∧
      ((processElement analyticsType.SYSTEM [] "localhost" 0 elemC6).getD 0
          defaultRecord).tags.length = 3 ∧
      ((processElement analyticsType.SYSTEM [] "localhost" 0 elemC6).getD 0
          defaultRecord).fields = [("Transmit_Mbps", FieldValue.float 0)] ∧
      ((processElement analyticsType.SYSTEM [] "localhost" 0 elemC6).getD 0
          defaultRecord).timestamp = 1565474000) ∧
    (∀ (dpname : String) (v : Rat) (st : MapState),
      strHasPrefixB ((strSplitSlash dpname).getD 1 "") "I" = true →
        mget "interface" (deriveSystem "NETWORK" (strSplitSlash dpname) v st).tags
            = some ((strSplitSlash dpname).getD 2 "") ∧
        mget ((strSplitSlash dpname).getD 3 "")
            (deriveSystem "NETWORK" (strSplitSlash dpname) v st).fields
            = some (FieldValue.float v)) ∧
    (∀ (dpname : String) (v : Rat) (st : MapState),
      strHasPrefixB ((strSplitSlash dpname).getD 1 "") "I" = false →
        mget "interface" (deriveSystem "NETWORK" (strSplitSlash dpname) v st).tags
            = mget "interface" st.tags ∧
        mget (((strSplitSlash dpname).getD 1 "") ++ "_" ++
            ((strSplitSlash dpname).getD 2 ""))
            (deriveSystem "NETWORK" (strSplitSlash dpname) v st).fields
            = some (FieldValue.float v)) := by
  refine ⟨by decide, ?_, ?_⟩
  · intro dpname v st h
    simp only [List.getD_eq_getElem?_getD] at h
    constructor
    · simp [deriveSystem, h, mget_mset_self]
    · simp [deriveSystem, h, mget_mset_self]
  · intro dpname v st h
    simp only [List.getD_eq_getElem?_getD] at h
    constructor
    · simp only [deriveSystem]
      simp [h]
      exact mget_mset_ne _ _ _ _ (by decide)
    · simp [deriveSystem, h, mget_mset_self]

/-- Witness for C6's conditional parts at a concrete interface-group
path. -/
theorem C6_witness :
    strHasPrefixB ((strSplitSlash "Controller-A/IG2/eth0/Rx_KBps").getD 1 "") "I"
        = true ∧
    (mget "interface" (deriveSystem "NETWORK"
          (strSplitSlash "Controller-A/IG2/eth0/Rx_KBps") 7 ⟨[], []⟩).tags
        = some ((strSplitSlash "Controller-A/IG2/eth0/Rx_KBps").getD 2 "") ∧
      mget ((strSplitSlash "Controller-A/IG2/eth0/Rx_KBps").getD 3 "")
          (deriveSystem "NETWORK" (strSplitSlash "Controller-A/IG2/eth0/Rx_KBps")
            7 ⟨[], []⟩).fields
        = some (FieldValue.float 7)) :=
  ⟨by decide,
    C6_network_example_and_rule.2.1 "Controller-A/IG2/eth0/Rx_KBps" 7 ⟨[], []⟩
      (by decide)⟩

/-- Claim C7: `Gather` fails synchronously with the no-servers error
exactly on an empty server list (spawning nothing); otherwise it returns
success with one independent task per server, and each step's failure is
collected without stopping the remaining steps or sibling servers. -/
theorem C7_gather_orchestration :
    ∀ (servers : List String) (dc cc : Bool) (outcomes : String → stepOutcomes),
      (servers = [] → gather servers dc cc outcomes
          = Except.error "no servers specified") ∧
      (servers ≠ [] → ∃ l, gather servers dc cc outcomes = Except.ok l ∧
        l = servers.map (fun serv =>
          (serv, serverTaskErrors dc cc (outcomes serv)))) ∧
      (∀ (o : stepOutcomes) (e : String),
        (o.listSystemPropertiesErr = some e → e ∈ serverTaskErrors dc cc o) ∧
        (o.systemAnalyticsErr = some e → e ∈ serverTaskErrors dc cc o) ∧
        (dc = true → o.dataAnalyticsErr = some e → e ∈ serverTaskErrors dc cc o) ∧
        (cc = true → o.capacityErr = some e → e ∈ serverTaskErrors dc cc o)) := by
  intro servers dc cc outcomes
  refine ⟨?_, ?_, ?_⟩
  · intro h; subst h; rfl
  · intro h
    refine ⟨_, ?_, rfl⟩
    unfold gather
    rw [if_neg]
    simpa using h
  · intro o e
    refine ⟨?_, ?_, ?_, ?_⟩
    · intro h; simp [serverTaskErrors, optErr, h]
    · intro h; simp [serverTaskErrors, optErr, h]
    · intro hdc h; simp [serverTaskErrors, optErr, hdc, h]
    · intro hcc h; simp [serverTaskErrors, optErr, hcc, h]

/-- Witness for C7: empty-list failure and a step error still collected
when earlier steps failed too. -/
theorem C7_witness :
    gather [] true true outcomesOneBadServer = Except.error "no servers specified" ∧
    "eD" ∈ serverTaskErrors true true ⟨some "eA", some "eB", some "eC", some "eD"⟩ :=
  ⟨(C7_gather_orchestration [] true true outcomesOneBadServer).1 rfl,
    ((C7_gather_orchestration ["s1"] true true outcomesOneBadServer).2.2
      ⟨some "eA", some "eB", some "eC", some "eD"⟩ "eD").2.2.2 rfl rfl⟩

/-- Claim C8: whenever the JSON decode of the response body fails (as it
does for any body that is not valid JSON or not the expected
array-of-objects shape, e.g. the literal text "This is not JSON at all"),
`importData` returns the decode error and emits zero records. -/
theorem C8_decode_failure_emits_nothing :
    ∀ (e : String) (sysName : List String) (host : String) (t : analyticsType)
      (now : Int),
      importData (Except.error e) sysName host t now
        = (Except.error "error decoding JSON", []) := by
  intro e sysName host t now
  rfl

/-- Counterexample to claim C9: status 201 is 2xx, yet `doRequest`
reports a hard status failure. -/
theorem C9_status_201_fails :
    (doRequestModel "localhost" none "admin" "admin"
        (httpOutcome.response 201)).result
      = Except.error
          "Unable to get valid stat result from 'localhost', http response code : 201" ∧
    (200 ≤ 201 ∧ 201 ≤ 299) :=
  ⟨by rfl, by decide⟩

/-- Claim C9 as amended: with credentials configured and no transport
error, `doRequest` succeeds exactly on status 200; every other status is
a status failure. -/
theorem C9_amended_only_200_succeeds :
    ∀ (addr : String) (urlUser : Option (String × String)) (u p : String)
      (code : Nat),
      (u ≠ "" ∨ p ≠ "") →
      (isSuccess (doRequestModel addr urlUser u p (httpOutcome.response code)).result
          = true ↔ code = 200) := by
  intro addr urlUser u p code h
  simp only [doRequestModel]
  rw [if_pos h]
  by_cases hc : code = 200
  · simp [hc, isSuccess]
  · simp [hc, isSuccess]

/-- Witness for the amended C9 at status 200. -/
theorem C9_witness :
    (("admin" : String) ≠ "" ∨ ("admin" : String) ≠ "") ∧
    (isSuccess (doRequestModel "localhost" none "admin" "admin"
        (httpOutcome.response 200)).result = true ↔ 200 = 200) :=
  ⟨Or.inl (by decide),
    C9_amended_only_200_succeeds "localhost" none "admin" "admin" 200
      (Or.inl (by decide))⟩

/-- Claim C10: the `SYSTEM` sub-category dispatch compares
`ToUpper(systemAnalyticsType)`, so an element whose sub-category differs
only in letter case maps to the same tags, fields and timestamps, while
every emitted record keeps the element's original sub-category string as
its measurement name. -/
theorem C10_dispatch_case_insensitive :
    ∀ (elem : analyticsElement) (sysName : List String) (host : String)
      (now : Int) (t' : String),
      strToUpper t' = strToUpper elem.systemAnalyticsType →
      processElement analyticsType.SYSTEM sysName host now
          { elem with systemAnalyticsType := t' }
        = (processElement analyticsType.SYSTEM sysName host now elem).map
            (replaceMeasurement t') := by
  intro elem sysName host now t' h
  simp [processElement, emitPaths_toUpper_congr elem t' h]

/-- Witness for C10: the lower-case `network` element maps exactly like
the upper-case one, with the lower-case measurement name. -/
theorem C10_witness :
    strToUpper "network" = strToUpper elemC10.systemAnalyticsType ∧
    processElement analyticsType.SYSTEM [] "localhost" 0
        { elemC10 with systemAnalyticsType := "network" }
      = (processElement analyticsType.SYSTEM [] "localhost" 0 elemC10).map
          (replaceMeasurement "network") :=
  ⟨by decide,
    C10_dispatch_case_insensitive elemC10 [] "localhost" 0 "network" (by decide)⟩

end Intelliflash
